import Mathlib

/-!
Verification of the MCP method dispatcher and dynamic tool-schema generator
of the freshdesk-mcp server (src/freshdesk_mcp/server.py, function
mcp_handler) and of the stdio relay (tools/mcp_bridge.py, function
handle_message).

The embedding is shallow: the Python dispatch code is translated into pure
Lean functions over an explicit JSON value type.  The tool registry
(mcp._tool_manager._tools, a dict populated once at startup and never
mutated while serving) is passed as an association list; tool handlers are
modelled as Lean functions from the arguments value to an outcome that is
either a returned value or a raised exception carrying its message, which
is how the dispatch code observes them (it only calls tool_obj.run and
catches any exception).
-/

/-- JSON values, as produced and consumed by the dispatcher.  Numbers are
modelled as integers: the dispatcher only ever embeds the integer error
codes -32601 and -32603 and relays handler data opaquely. -/
inductive Json where
  | null : Json
  | bool : Bool → Json
  | num : Int → Json
  | str : String → Json
  | arr : List Json → Json
  | obj : List (String × Json) → Json
deriving Repr

/-- Field access on a JSON object (Python dict indexing / .get). -/
def Json.getField : Json → String → Option Json
  | .obj fs, k => List.lookup k fs
  | _, _ => none

/-- The id slot of a response: Python serialises a missing id as null. -/
def idJson : Option Json → Json
  | some j => j
  | none => Json.null

/-- Minimal JSON string escaping, as json.dumps applies to keys and
string values. -/
def escapeJsonString (s : String) : String :=
  String.join (s.toList.map (fun c =>
    if c = '\\' then "\\\\"
    else if c = '"' then "\\\""
    else if c = '\n' then "\\n"
    else String.singleton c))

mutual
/-- Model of the Python standard library call json.dumps(v, indent=2,
default=str) used at server.py:1753 to serialise structured handler
results.  Like the library function it renders every value; the exact
indent-2 whitespace of the library is simplified to single-line output,
which no property below depends on. -/
def Json.dumps : Json → String
  | .null => "null"
  | .bool true => "true"
  | .bool false => "false"
  | .num n => toString n
  | .str s => "\"" ++ escapeJsonString s ++ "\""
  | .arr es => "[" ++ Json.dumpsList es ++ "]"
  | .obj fs => "\x7b" ++ Json.dumpsFields fs ++ "\x7d"

def Json.dumpsList : List Json → String
  | [] => ""
  | [x] => Json.dumps x
  | x :: xs => Json.dumps x ++ ", " ++ Json.dumpsList xs

def Json.dumpsFields : List (String × Json) → String
  | [] => ""
  | [(k, v)] => "\"" ++ escapeJsonString k ++ "\": " ++ Json.dumps v
  | (k, v) :: xs =>
      "\"" ++ escapeJsonString k ++ "\": " ++ Json.dumps v ++ ", " ++
        Json.dumpsFields xs
end

/-- Rendering of a Python value inside an f-string (str(v)), used by the
error messages at server.py:1777 and 1812.  Strings render verbatim, None
renders as the word None; container rendering is approximated by the JSON
encoding (Python would use repr), which no property below depends on. -/
def fstrJson : Json → String
  | .str s => s
  | .null => "None"
  | .bool true => "True"
  | .bool false => "False"
  | .num n => toString n
  | j => Json.dumps j

/-- str(message.get(...)) when the key may be absent: absent gives None. -/
def fstrOptJson : Option Json → String
  | some j => fstrJson j
  | none => "None"

/-- f-string rendering of the method slot (a string or absent). -/
def fstrOptStr : Option String → String
  | some s => s
  | none => "None"

/-! ## Parameter annotations and the schema synthesizer

server.py:1667-1710.  For each parameter of the handler signature the code
compares the annotation against the concrete objects int, float, bool,
dict, Dict[str, Any], list, List[Any] and str, then checks for a typing
alias whose _name attribute is "Optional" and repeats the comparisons on
its first type argument.  Anything else (including an unannotated
parameter, whose annotation is inspect.Parameter.empty) keeps the default
tag "string".  Annotations are modelled by one constructor per object the
code distinguishes; since the typing module collapses nested Optionals,
the Optional constructor wraps a simple annotation.  An annotation whose
processing raises (an exotic object with a throwing comparison, the
"uninspectable" case the surrounding try/except at 1667/1708 exists for)
is modelled by the raising constructor. -/

/-- The simple annotation objects the synthesizer distinguishes.  other
stands for any object equal to none of them and lacking
_name == "Optional" (for example List[int] or a pydantic model). -/
inductive PySimpleType where
  | int | float | bool | dict | dictStrAny | list | listAny | str | other
deriving Repr, DecidableEq

/-- A parameter annotation as the synthesizer observes it. -/
inductive PyAnnotation where
  | simple : PySimpleType → PyAnnotation
  | optional : PySimpleType → PyAnnotation
  | empty : PyAnnotation
  | raising : PyAnnotation
deriving Repr, DecidableEq

/-- The inner if/elif chain of server.py:1692-1703 applied to the type
argument of an Optional annotation; json_type keeps its default "string"
when no branch matches. -/
def optionalInnerTag : PySimpleType → String
  | .int => "integer"
  | .float => "number"
  | .bool => "boolean"
  | .dict => "object"
  | .dictStrAny => "object"
  | .list => "array"
  | .listAny => "array"
  | .str => "string"
  | .other => "string"

/-- The if/elif chain of server.py:1676-1703 computing json_type; none
models the annotation whose processing raises, aborting the enclosing
try block. -/
def jsonTypeOf : PyAnnotation → Option String
  | .simple .int => some "integer"
  | .simple .float => some "number"
  | .simple .bool => some "boolean"
  | .simple .dict => some "object"
  | .simple .dictStrAny => some "object"
  | .simple .list => some "array"
  | .simple .listAny => some "array"
  | .simple .str => some "string"
  | .simple .other => some "string"
  | .optional t => some (optionalInnerTag t)
  | .empty => some "string"
  | .raising => none

/-- One parameter of a handler signature: its name, its annotation, and
whether it declares a default value (param.default == inspect.Parameter.empty
is the no-default case, server.py:1706). -/
structure PyParam where
  name : String
  annotation : PyAnnotation
  hasDefault : Bool
deriving Repr, DecidableEq

/-- The input_schema dict built by the synthesizer: type is always
"object", properties maps parameter names to their json_type tag, required
lists the names lacking a default (server.py:1662-1666). -/
structure InputSchema where
  type : String
  properties : List (String × String)
  required : List String
deriving Repr, DecidableEq

/-- Python dict assignment d[k] = v: an existing key keeps its position
and takes the new value, a new key is appended at the end. -/
def dictInsert : List (String × String) → String → String →
    List (String × String)
  | [], k, v => [(k, v)]
  | (k1, v1) :: rest, k, v =>
      if k1 = k then (k, v) :: rest else (k1, v1) :: dictInsert rest k v

/-- The parameter loop of server.py:1670-1707 inside its try block:
parameters named self or cls are skipped; otherwise json_type is computed,
the property entry is written, and the name is appended to required when
the parameter has no default.  A raising annotation aborts the loop,
leaving the schema as accumulated so far (the except arm at 1708 only
logs). -/
def synthLoop : List PyParam → InputSchema → InputSchema
  | [], acc => acc
  | p :: rest, acc =>
      if p.name = "self" ∨ p.name = "cls" then
        synthLoop rest acc
      else
        match jsonTypeOf p.annotation with
        | none => acc
        | some jt =>
            synthLoop rest
              { acc with
                properties := dictInsert acc.properties p.name jt,
                required :=
                  acc.required ++ if p.hasDefault then [] else [p.name] }

/-- Schema synthesis for one tool: the loop starting from the empty
object schema of server.py:1662-1666. -/
def synthesizeSchema (params : List PyParam) : InputSchema :=
  synthLoop params { type := "object", properties := [], required := [] }

/-- The inputSchema dict rendered as JSON for the tools/list entry. -/
def schemaJson (s : InputSchema) : Json :=
  Json.obj
    [ ("type", Json.str s.type),
      ("properties",
        Json.obj (s.properties.map (fun p =>
          (p.1, Json.obj [("type", Json.str p.2)])))),
      ("required", Json.arr (s.required.map Json.str)) ]

/-! ## Tool objects, the result adapter and the tools/list entries -/

/-- What a handler invocation looks like from the dispatch boundary
(server.py:1749): either it returns a value or it raises an exception,
observed only through str(e). -/
inductive HandlerOutcome where
  | ok : Json → HandlerOutcome
  | raises : String → HandlerOutcome

/-- A registered tool object as the dispatcher observes it: the optional
description attribute, the docstring of the wrapped function (fn.__doc__,
possibly None), the parameters of the signature of fn, and the run method
invoked with the arguments value. -/
structure ToolObj where
  description : Option String
  fnDoc : Option String
  params : List PyParam
  run : Json → HandlerOutcome

/-- The registry mcp._tool_manager._tools: an insertion-ordered mapping
from tool name to tool object, fixed before serving starts. -/
abbrev Registry := List (String × ToolObj)

/-- The doc lookup of server.py:1653-1659: a truthy description attribute
wins, otherwise fn.__doc__ is taken (every function has a __doc__
attribute, possibly None). -/
def docOf (t : ToolObj) : Option String :=
  match t.description with
  | some d => if d = "" then t.fnDoc else some d
  | none => t.fnDoc

/-- Python (doc or default): None and the empty string fall back. -/
def pyOrStr (o : Option String) (dflt : String) : String :=
  match o with
  | some s => if s = "" then dflt else s
  | none => dflt

/-- Result formatting at server.py:1752-1755: dict and list results go
through json.dumps, anything else through str.  A non-container result is
carried as the Json value whose fstrJson rendering is its str form;
handlers of this server return dicts, lists or strings. -/
def formatResult (r : Json) : String :=
  match r with
  | .obj fs => Json.dumps (Json.obj fs)
  | .arr es => Json.dumps (Json.arr es)
  | r => fstrJson r

/-- One entry of the tools array (server.py:1712-1717): name, the doc or
its "Tool: name" fallback truncated to 200 characters, and the
synthesized input schema. -/
def toolEntry (name : String) (t : ToolObj) : Json :=
  Json.obj
    [ ("name", Json.str name),
      ("description",
        Json.str ((pyOrStr (docOf t) ("Tool: " ++ name)).take 200)),
      ("inputSchema", schemaJson (synthesizeSchema t.params)) ]

/-- The tools array of server.py:1642-1725.  An empty registry takes the
falsy branch at 1645 and leaves tools empty, which coincides with mapping
over no entries.  The per-tool except arm at 1718 is unreachable in the
model because schema synthesis already catches its own failures, so every
registry entry contributes exactly one array entry. -/
def toolsArr (registry : Registry) : List Json :=
  registry.map (fun p => toolEntry p.1 p.2)

/-! ## JSON-RPC response envelopes and the dispatcher -/

/-- A JSON-RPC error response envelope (server.py:1772-1780, 1784-1792,
1807-1815). -/
def errorResponse (msgId : Json) (code : Int) (msg : String) : Json :=
  Json.obj
    [ ("jsonrpc", Json.str "2.0"),
      ("id", msgId),
      ("error",
        Json.obj [("code", Json.num code), ("message", Json.str msg)]) ]

/-- The initialize result (server.py:1617-1631): the protocol version the
client supplied (or the default), fixed capabilities and server
identity. -/
def initializeResponse (msgId : Json) (clientVersion : Json) : Json :=
  Json.obj
    [ ("jsonrpc", Json.str "2.0"),
      ("id", msgId),
      ("result",
        Json.obj
          [ ("protocolVersion", clientVersion),
            ("capabilities",
              Json.obj [("tools", Json.obj []), ("prompts", Json.obj [])]),
            ("serverInfo",
              Json.obj
                [ ("name", Json.str "freshdesk-mcp"),
                  ("version", Json.str "1.2.0") ]) ]) ]

/-- The tools/list success envelope (server.py:1727-1733). -/
def toolsListResponse (msgId : Json) (registry : Registry) : Json :=
  Json.obj
    [ ("jsonrpc", Json.str "2.0"),
      ("id", msgId),
      ("result", Json.obj [("tools", Json.arr (toolsArr registry))]) ]

/-- The tools/call success envelope (server.py:1757-1768): a single text
content block. -/
def callSuccessResponse (msgId : Json) (text : String) : Json :=
  Json.obj
    [ ("jsonrpc", Json.str "2.0"),
      ("id", msgId),
      ("result",
        Json.obj
          [ ("content",
              Json.arr
                [Json.obj
                  [("type", Json.str "text"), ("text", Json.str text)]]) ]) ]

/-- The prompts/list success envelope (server.py:1796-1803). -/
def promptsListResponse (msgId : Json) : Json :=
  Json.obj
    [ ("jsonrpc", Json.str "2.0"),
      ("id", msgId),
      ("result", Json.obj [("prompts", Json.arr [])]) ]

/-- What the HTTP endpoint returns for one message: a JSON body with
status 200, or the bare 204 response used for notifications
(server.py:1638). -/
inductive HttpResponse where
  | json : Json → HttpResponse
  | noContent : HttpResponse
deriving Repr

/-- A parsed inbound message (server.py:1606-1609): method, params
defaulting to the empty mapping, and the optional id. -/
structure McpMessage where
  method : Option String
  params : List (String × Json)
  id : Option Json

/-- The registry membership test and lookup of server.py:1745-1746:
tool_name in mcp._tool_manager._tools succeeds only when tool_name is a
string equal to a registered key. -/
def lookupTool (registry : Registry) : Option Json → Option ToolObj
  | some (Json.str s) => List.lookup s registry
  | _ => none

/-- The tools/call arm (server.py:1738-1792): extract name and arguments,
look the tool up, run it catching every exception; an unknown name gives
the -32601 error, a raising handler the -32603 error. -/
def toolsCall (registry : Registry) (msgId : Json)
    (params : List (String × Json)) : HttpResponse :=
  let toolName := List.lookup "name" params
  let toolArgs := (List.lookup "arguments" params).getD (Json.obj [])
  match lookupTool registry toolName with
  | some tool =>
      match tool.run toolArgs with
      | .ok r => .json (callSuccessResponse msgId (formatResult r))
      | .raises m =>
          .json (errorResponse msgId (-32603) ("Tool execution error: " ++ m))
  | none =>
      .json (errorResponse msgId (-32601)
        ("Tool not found: " ++ fstrOptJson toolName))

/-- The method dispatch of mcp_handler (server.py:1613-1815) for a parsed
message.  The function is total: no branch can raise past this boundary,
matching the try/except structure of the source. -/
def mcpHandler (registry : Registry) (msg : McpMessage) : HttpResponse :=
  let msgId := idJson msg.id
  if msg.method = some "initialize" then
    let clientVersion :=
      (List.lookup "protocolVersion" msg.params).getD (Json.str "2024-11-05")
    .json (initializeResponse msgId clientVersion)
  else if msg.method = some "notifications/initialized" then
    .noContent
  else if msg.method = some "tools/list" then
    .json (toolsListResponse msgId registry)
  else if msg.method = some "tools/call" then
    toolsCall registry msgId msg.params
  else if msg.method = some "prompts/list" then
    .json (promptsListResponse msgId)
  else
    .json (errorResponse msgId (-32601)
      ("Method not found: " ++ fstrOptStr msg.method))

/-! ## The stdio bridge (tools/mcp_bridge.py, handle_message) -/

/-- The error frame the bridge prints for a non-200/204 HTTP status
(mcp_bridge.py:59-67), carrying the id of the request line. -/
def bridgeErrorFrame (msgId : Option Json) (status : Nat) : Json :=
  Json.obj
    [ ("jsonrpc", Json.str "2.0"),
      ("id", idJson msgId),
      ("error",
        Json.obj
          [ ("code", Json.num (-32603)),
            ("message", Json.str ("HTTP error " ++ toString status)) ]) ]

/-- The output lines handle_message emits for one request
(mcp_bridge.py:49-67), as a function of the HTTP status, the parsed 200
response body, and the id of the request: 204 emits nothing, 200 relays
the body, anything else emits one error frame. -/
def bridgeHandle (status : Nat) (body : Json) (msgId : Option Json) :
    List Json :=
  if status = 204 then []
  else if status = 200 then [body]
  else [bridgeErrorFrame msgId status]

/-! ## Helper lemmas about the synthesizer -/

lemma lookup_cons_self {β : Type} (k : String) (v : β)
    (rest : List (String × β)) :
    List.lookup k ((k, v) :: rest) = some v := by
  simp [List.lookup]

lemma lookup_cons_ne {β : Type} {a k : String} (hne : a ≠ k) (v : β)
    (rest : List (String × β)) :
    List.lookup a ((k, v) :: rest) = List.lookup a rest := by
  have h : (a == k) = false := beq_eq_false_iff_ne.mpr hne
  simp [List.lookup, h]

lemma lookup_eq_none_iff {β : Type} (a : String) (m : List (String × β)) :
    List.lookup a m = none ↔ a ∉ m.map Prod.fst := by
  induction m with
  | nil => simp [List.lookup]
  | cons p rest ih =>
      obtain ⟨k, v⟩ := p
      by_cases h : a = k
      · subst h
        simp [lookup_cons_self]
      · simp [lookup_cons_ne h, ih, h]

lemma dictInsert_lookup_self (m : List (String × String)) (k v : String) :
    List.lookup k (dictInsert m k v) = some v := by
  induction m with
  | nil => simp [dictInsert, lookup_cons_self]
  | cons p rest ih =>
      obtain ⟨k1, v1⟩ := p
      by_cases h : k1 = k
      · simp [dictInsert, h, lookup_cons_self]
      · simp [dictInsert, h, lookup_cons_ne (Ne.symm h), ih]

lemma dictInsert_lookup_ne (m : List (String × String)) (k v a : String)
    (hne : a ≠ k) :
    List.lookup a (dictInsert m k v) = List.lookup a m := by
  induction m with
  | nil => simp [dictInsert, lookup_cons_ne hne]
  | cons p rest ih =>
      obtain ⟨k1, v1⟩ := p
      by_cases h : k1 = k
      · subst h
        simp [dictInsert, lookup_cons_ne hne]
      · by_cases h2 : a = k1
        · subst h2
          simp [dictInsert, h, lookup_cons_self]
        · simp [dictInsert, h, lookup_cons_ne h2, ih]

lemma jsonTypeOf_eq_none_iff (a : PyAnnotation) :
    jsonTypeOf a = none ↔ a = PyAnnotation.raising := by
  cases a with
  | simple t => cases t <;> simp [jsonTypeOf]
  | optional t => simp [jsonTypeOf]
  | empty => simp [jsonTypeOf]
  | raising => simp [jsonTypeOf]

/-- Processing a parameter list with no raising annotation never aborts:
the loop distributes over append. -/
lemma synthLoop_append (pre rest : List PyParam) (acc : InputSchema)
    (hpre : ∀ p ∈ pre, p.annotation ≠ PyAnnotation.raising) :
    synthLoop (pre ++ rest) acc = synthLoop rest (synthLoop pre acc) := by
  induction pre generalizing acc with
  | nil => simp [synthLoop]
  | cons p ps ih =>
      have hp : p.annotation ≠ PyAnnotation.raising := hpre p (by simp)
      have hps : ∀ q ∈ ps, q.annotation ≠ PyAnnotation.raising :=
        fun q hq => hpre q (by simp [hq])
      by_cases hname : p.name = "self" ∨ p.name = "cls"
      · simp only [List.cons_append, synthLoop, if_pos hname]
        exact ih acc hps
      · obtain ⟨jt, hjt⟩ : ∃ jt, jsonTypeOf p.annotation = some jt := by
          cases h : jsonTypeOf p.annotation with
          | none => exact absurd ((jsonTypeOf_eq_none_iff _).mp h) hp
          | some jt => exact ⟨jt, rfl⟩
        simp only [List.cons_append, synthLoop, if_neg hname, hjt]
        exact ih _ hps

/-- The accumulated required list only grows, by exactly the names of the
processed parameters lacking a default. -/
lemma synthLoop_required (ps : List PyParam) (acc : InputSchema)
    (hns : ∀ p ∈ ps, ¬(p.name = "self" ∨ p.name = "cls"))
    (hnr : ∀ p ∈ ps, p.annotation ≠ PyAnnotation.raising) :
    (synthLoop ps acc).required =
      acc.required ++ (ps.filter (fun p => !p.hasDefault)).map PyParam.name := by
  induction ps generalizing acc with
  | nil => simp [synthLoop]
  | cons p rest ih =>
      have hp := hns p (by simp)
      have hr := hnr p (by simp)
      have hrest1 : ∀ q ∈ rest, ¬(q.name = "self" ∨ q.name = "cls") :=
        fun q hq => hns q (by simp [hq])
      have hrest2 : ∀ q ∈ rest, q.annotation ≠ PyAnnotation.raising :=
        fun q hq => hnr q (by simp [hq])
      obtain ⟨jt, hjt⟩ : ∃ jt, jsonTypeOf p.annotation = some jt := by
        cases h : jsonTypeOf p.annotation with
        | none => exact absurd ((jsonTypeOf_eq_none_iff _).mp h) hr
        | some jt => exact ⟨jt, rfl⟩
      simp only [synthLoop, if_neg hp, hjt]
      rw [ih _ hrest1 hrest2]
      cases hd : p.hasDefault <;> simp [List.filter, hd, List.append_assoc]

/-- A property key that no processed (non-skipped) parameter writes is
untouched by the loop. -/
lemma synthLoop_lookup_preserved (ps : List PyParam) (acc : InputSchema)
    (a : String)
    (h : ∀ p ∈ ps, ¬(p.name = "self" ∨ p.name = "cls") → p.name ≠ a) :
    List.lookup a (synthLoop ps acc).properties =
      List.lookup a acc.properties := by
  induction ps generalizing acc with
  | nil => simp [synthLoop]
  | cons p rest ih =>
      have hrest : ∀ q ∈ rest, ¬(q.name = "self" ∨ q.name = "cls") →
          q.name ≠ a := fun q hq => h q (by simp [hq])
      by_cases hname : p.name = "self" ∨ p.name = "cls"
      · simp only [synthLoop, if_pos hname]
        exact ih acc hrest
      · cases hjt : jsonTypeOf p.annotation with
        | none => simp only [synthLoop, if_neg hname, hjt]
        | some jt =>
            simp only [synthLoop, if_neg hname, hjt]
            rw [ih _ hrest]
            exact dictInsert_lookup_ne _ _ _ _ (Ne.symm (h p (by simp) hname))

/-- A name that no processed (non-skipped) parameter carries never enters
the required list. -/
lemma synthLoop_required_mem (ps : List PyParam) (acc : InputSchema)
    (a : String)
    (h : ∀ p ∈ ps, ¬(p.name = "self" ∨ p.name = "cls") → p.name ≠ a) :
    (a ∈ (synthLoop ps acc).required ↔ a ∈ acc.required) := by
  induction ps generalizing acc with
  | nil => simp [synthLoop]
  | cons p rest ih =>
      have hrest : ∀ q ∈ rest, ¬(q.name = "self" ∨ q.name = "cls") →
          q.name ≠ a := fun q hq => h q (by simp [hq])
      by_cases hname : p.name = "self" ∨ p.name = "cls"
      · simp only [synthLoop, if_pos hname]
        exact ih acc hrest
      · cases hjt : jsonTypeOf p.annotation with
        | none => simp only [synthLoop, if_neg hname, hjt]
        | some jt =>
            simp only [synthLoop, if_neg hname, hjt]
            rw [ih _ hrest]
            have hne : a ≠ p.name := Ne.symm (h p (by simp) hname)
            cases hd : p.hasDefault <;>
              simp [List.mem_append, fun hc => hne hc]

/-- With distinct names, no skipped or raising parameter, every parameter
ends up in properties under its json_type tag. -/
lemma synthLoop_lookup (ps : List PyParam) (acc : InputSchema)
    (hns : ∀ p ∈ ps, ¬(p.name = "self" ∨ p.name = "cls"))
    (hnr : ∀ p ∈ ps, p.annotation ≠ PyAnnotation.raising)
    (hnd : (ps.map PyParam.name).Nodup) :
    ∀ q ∈ ps, List.lookup q.name (synthLoop ps acc).properties =
      jsonTypeOf q.annotation := by
  induction ps generalizing acc with
  | nil => intro q hq; simp at hq
  | cons p rest ih =>
      intro q hq
      have hp := hns p (by simp)
      have hr := hnr p (by simp)
      have hrest1 : ∀ q ∈ rest, ¬(q.name = "self" ∨ q.name = "cls") :=
        fun q hq => hns q (by simp [hq])
      have hrest2 : ∀ q ∈ rest, q.annotation ≠ PyAnnotation.raising :=
        fun q hq => hnr q (by simp [hq])
      have hrest3 : (rest.map PyParam.name).Nodup := by
        simp only [List.map_cons, List.nodup_cons] at hnd
        exact hnd.2
      have hphead : p.name ∉ rest.map PyParam.name := by
        simp only [List.map_cons, List.nodup_cons] at hnd
        exact hnd.1
      obtain ⟨jt, hjt⟩ : ∃ jt, jsonTypeOf p.annotation = some jt := by
        cases h : jsonTypeOf p.annotation with
        | none => exact absurd ((jsonTypeOf_eq_none_iff _).mp h) hr
        | some jt => exact ⟨jt, rfl⟩
      simp only [synthLoop, if_neg hp, hjt]
      rcases List.mem_cons.mp hq with hqp | hqr
      · subst hqp
        rw [synthLoop_lookup_preserved _ _ _
              (fun r hr _ => by
                intro hc
                exact hphead (hc ▸ List.mem_map_of_mem PyParam.name hr)),
            dictInsert_lookup_self, hjt]
      · exact ih _ hrest1 hrest2 hrest3 q hqr

/-! ## Concrete tools used by witnesses -/

/-- The echo tool of the test scenarios: one required string parameter and
one optional integer parameter; the handler returns the text argument. -/
def echoTool : ToolObj :=
  { description := some "Echo a string",
    fnDoc := none,
    params := [⟨"text", PyAnnotation.simple PySimpleType.str, false⟩,
               ⟨"page", PyAnnotation.optional PySimpleType.int, true⟩],
    run := fun args => .ok ((args.getField "text").getD Json.null) }

/-! ## Claims about the schema synthesizer -/

/-- C2: for every registered tool, the synthesized schema lists as
required exactly the declared parameter names lacking a default value: a
parameter with a default never appears in required and one without a
default always does.  Registered handlers are module-level functions, so
no parameter is named self or cls, names are distinct, and every
annotation is an ordinary object whose processing does not raise. -/
theorem tool_schema_required_exact (t : ToolObj)
    (hns : ∀ p ∈ t.params, ¬(p.name = "self" ∨ p.name = "cls"))
    (hnr : ∀ p ∈ t.params, p.annotation ≠ PyAnnotation.raising)
    (hnd : (t.params.map PyParam.name).Nodup) :
    (synthesizeSchema t.params).required =
      (t.params.filter (fun p => !p.hasDefault)).map PyParam.name ∧
    (∀ p ∈ t.params, p.hasDefault = true →
      p.name ∉ (synthesizeSchema t.params).required) ∧
    (∀ p ∈ t.params, p.hasDefault = false →
      p.name ∈ (synthesizeSchema t.params).required) ∧
    (∀ nm, (toolEntry nm t).getField "inputSchema" =
      some (schemaJson (synthesizeSchema t.params))) := by
  have hreq : (synthesizeSchema t.params).required =
      (t.params.filter (fun p => !p.hasDefault)).map PyParam.name := by
    unfold synthesizeSchema
    rw [synthLoop_required _ _ hns hnr]
    rfl
  refine ⟨hreq, ?_, ?_, ?_⟩
  · intro p hp hd
    rw [hreq]
    intro hmem
    obtain ⟨q, hq, hqname⟩ := List.mem_map.mp hmem
    have hqmem := (List.mem_filter.mp hq).1
    have hqnd : q.hasDefault = false := by
      have := (List.mem_filter.mp hq).2
      simpa using this
    have hqp : q = p := List.inj_on_of_nodup_map hnd hqmem hp hqname
    rw [hqp, hd] at hqnd
    exact Bool.noConfusion hqnd
  · intro p hp hd
    rw [hreq]
    exact List.mem_map.mpr
      ⟨p, List.mem_filter.mpr ⟨hp, by simp [hd]⟩, rfl⟩
  · intro nm
    rfl

theorem tool_schema_required_exact_witness :
    (synthesizeSchema echoTool.params).required = ["text"] := by
  have h := tool_schema_required_exact echoTool
    (by decide) (by decide) (by decide)
  rw [h.1]
  rfl

/-- C3: every parameter appears in properties under the coarse JSON
Schema tag of its declared annotation, per the table int to integer,
float to number, bool to boolean, dict to object, list to array, str to
string; an Optional wrapper is unwrapped to the tag of its inner type,
and an unrecognized or missing annotation gives string. -/
theorem tool_schema_type_tags (t : ToolObj)
    (hns : ∀ p ∈ t.params, ¬(p.name = "self" ∨ p.name = "cls"))
    (hnr : ∀ p ∈ t.params, p.annotation ≠ PyAnnotation.raising)
    (hnd : (t.params.map PyParam.name).Nodup) :
    (∀ p ∈ t.params,
      List.lookup p.name (synthesizeSchema t.params).properties =
        jsonTypeOf p.annotation) ∧
    jsonTypeOf (.simple .int) = some "integer" ∧
    jsonTypeOf (.simple .float) = some "number" ∧
    jsonTypeOf (.simple .bool) = some "boolean" ∧
    jsonTypeOf (.simple .dict) = some "object" ∧
    jsonTypeOf (.simple .list) = some "array" ∧
    jsonTypeOf (.simple .str) = some "string" ∧
    (∀ st, jsonTypeOf (.optional st) = jsonTypeOf (.simple st)) ∧
    jsonTypeOf .empty = some "string" ∧
    jsonTypeOf (.simple .other) = some "string" := by
  refine ⟨synthLoop_lookup _ _ hns hnr hnd, rfl, rfl, rfl, rfl, rfl, rfl,
    ?_, rfl, rfl⟩
  intro st
  cases st <;> rfl

theorem tool_schema_type_tags_witness :
    List.lookup "page" (synthesizeSchema echoTool.params).properties =
      some "integer" := by
  have h := (tool_schema_type_tags echoTool
    (by decide) (by decide) (by decide)).1
    ⟨"page", PyAnnotation.optional PySimpleType.int, true⟩ (by decide)
  simpa using h

/-- C10: parameters named self or cls are omitted from both properties
and required, whatever their annotation or default. -/
theorem schema_omits_self_cls (params : List PyParam) :
    List.lookup "self" (synthesizeSchema params).properties = none ∧
    "self" ∉ (synthesizeSchema params).properties.map Prod.fst ∧
    "self" ∉ (synthesizeSchema params).required ∧
    List.lookup "cls" (synthesizeSchema params).properties = none ∧
    "cls" ∉ (synthesizeSchema params).properties.map Prod.fst ∧
    "cls" ∉ (synthesizeSchema params).required := by
  have hself : ∀ p ∈ params, ¬(p.name = "self" ∨ p.name = "cls") →
      p.name ≠ "self" := fun p _ h hc => h (Or.inl hc)
  have hcls : ∀ p ∈ params, ¬(p.name = "self" ∨ p.name = "cls") →
      p.name ≠ "cls" := fun p _ h hc => h (Or.inr hc)
  have h1 := synthLoop_lookup_preserved params
    { type := "object", properties := [], required := [] } "self" hself
  have h2 := synthLoop_required_mem params
    { type := "object", properties := [], required := [] } "self" hself
  have h3 := synthLoop_lookup_preserved params
    { type := "object", properties := [], required := [] } "cls" hcls
  have h4 := synthLoop_required_mem params
    { type := "object", properties := [], required := [] } "cls" hcls
  refine ⟨h1, ?_, ?_, h3, ?_, ?_⟩
  · exact (lookup_eq_none_iff _ _).mp h1
  · intro hc
    simpa using h2.mp hc
  · exact (lookup_eq_none_iff _ _).mp h3
  · intro hc
    simpa using h4.mp hc

/-! ## Claims about the dispatcher -/

/-- C7: an initialize request carrying a protocolVersion echoes that
value verbatim in the result, advertises tools and prompts capabilities,
and reports the static server identity. -/
theorem initialize_echoes_protocol_version (registry : Registry)
    (msg : McpMessage) (v : Json)
    (hm : msg.method = some "initialize")
    (hv : List.lookup "protocolVersion" msg.params = some v) :
    mcpHandler registry msg =
      .json (initializeResponse (idJson msg.id) v) ∧
    ((initializeResponse (idJson msg.id) v).getField "result").bind
      (fun r => r.getField "protocolVersion") = some v ∧
    ((initializeResponse (idJson msg.id) v).getField "result").bind
      (fun r => (r.getField "capabilities").bind
        (fun c => c.getField "tools")) = some (Json.obj []) ∧
    ((initializeResponse (idJson msg.id) v).getField "result").bind
      (fun r => (r.getField "capabilities").bind
        (fun c => c.getField "prompts")) = some (Json.obj []) ∧
    ((initializeResponse (idJson msg.id) v).getField "result").bind
      (fun r => (r.getField "serverInfo").bind
        (fun s => s.getField "name")) = some (Json.str "freshdesk-mcp") ∧
    ((initializeResponse (idJson msg.id) v).getField "result").bind
      (fun r => (r.getField "serverInfo").bind
        (fun s => s.getField "version")) = some (Json.str "1.2.0") := by
  refine ⟨?_, rfl, rfl, rfl, rfl, rfl⟩
  simp [mcpHandler, hm, hv]

theorem initialize_echoes_protocol_version_witness :
    mcpHandler []
      { method := some "initialize",
        params := [("protocolVersion", Json.str "2025-01-01")],
        id := some (Json.num 1) } =
    HttpResponse.json
      (initializeResponse (Json.num 1) (Json.str "2025-01-01")) := by
  have h := initialize_echoes_protocol_version []
    { method := some "initialize",
      params := [("protocolVersion", Json.str "2025-01-01")],
      id := some (Json.num 1) }
    (Json.str "2025-01-01") rfl rfl
  exact h.1

/-- C9: an initialize request whose params omit protocolVersion succeeds
with the fixed default version 2024-11-05 and carries no error member. -/
theorem initialize_missing_version_defaults (registry : Registry)
    (msg : McpMessage)
    (hm : msg.method = some "initialize")
    (hv : List.lookup "protocolVersion" msg.params = none) :
    mcpHandler registry msg =
      .json (initializeResponse (idJson msg.id) (Json.str "2024-11-05")) ∧
    ((initializeResponse (idJson msg.id)
        (Json.str "2024-11-05")).getField "result").bind
      (fun r => r.getField "protocolVersion") =
        some (Json.str "2024-11-05") ∧
    (initializeResponse (idJson msg.id)
        (Json.str "2024-11-05")).getField "error" = none := by
  refine ⟨?_, rfl, rfl⟩
  simp [mcpHandler, hm, hv]

theorem initialize_missing_version_defaults_witness :
    mcpHandler []
      { method := some "initialize", params := [], id := none } =
    HttpResponse.json
      (initializeResponse Json.null (Json.str "2024-11-05")) := by
  have h := initialize_missing_version_defaults []
    { method := some "initialize", params := [], id := none } rfl rfl
  exact h.1

/-- C1: a registered tool whose handler raises yields the -32603 error
whose message is the fixed prefix followed by the exception description;
the dispatcher stays total and, the registry being immutable, later
tools/list and tools/call requests behave exactly as before. -/
theorem tool_error_contained (registry : Registry) (msg : McpMessage)
    (nm : String) (tool : ToolObj) (emsg : String)
    (hm : msg.method = some "tools/call")
    (hname : List.lookup "name" msg.params = some (Json.str nm))
    (hreg : List.lookup nm registry = some tool)
    (hrun : tool.run ((List.lookup "arguments" msg.params).getD
        (Json.obj [])) = HandlerOutcome.raises emsg) :
    mcpHandler registry msg =
      .json (errorResponse (idJson msg.id) (-32603)
        ("Tool execution error: " ++ emsg)) ∧
    (∀ msg2 : McpMessage, msg2.method = some "tools/list" →
      mcpHandler registry msg2 =
        .json (toolsListResponse (idJson msg2.id) registry)) ∧
    (∀ (msg3 : McpMessage) (nm2 : String) (t2 : ToolObj) (r : Json),
      msg3.method = some "tools/call" →
      List.lookup "name" msg3.params = some (Json.str nm2) →
      List.lookup nm2 registry = some t2 →
      t2.run ((List.lookup "arguments" msg3.params).getD (Json.obj []))
        = HandlerOutcome.ok r →
      mcpHandler registry msg3 =
        .json (callSuccessResponse (idJson msg3.id) (formatResult r))) := by
  refine ⟨?_, ?_, ?_⟩
  · simp [mcpHandler, hm, toolsCall, lookupTool, hname, hreg, hrun]
  · intro msg2 hm2
    simp [mcpHandler, hm2]
  · intro msg3 nm2 t2 r hm3 hname3 hreg3 hrun3
    simp [mcpHandler, hm3, toolsCall, lookupTool, hname3, hreg3, hrun3]

/-- A tool whose handler always raises, used to witness C1. -/
def boomTool : ToolObj :=
  { description := none, fnDoc := none, params := [],
    run := fun _ => .raises "kaboom" }

theorem tool_error_contained_witness :
    mcpHandler [("boom", boomTool)]
      { method := some "tools/call",
        params := [("name", Json.str "boom"), ("arguments", Json.obj [])],
        id := some (Json.num 5) } =
    HttpResponse.json (errorResponse (Json.num 5) (-32603)
      ("Tool execution error: " ++ "kaboom")) ∧
    mcpHandler [("boom", boomTool)]
      { method := some "tools/list", params := [], id := some (Json.num 6) } =
    HttpResponse.json
      (toolsListResponse (Json.num 6) [("boom", boomTool)]) := by
  have h := tool_error_contained [("boom", boomTool)]
    { method := some "tools/call",
      params := [("name", Json.str "boom"), ("arguments", Json.obj [])],
      id := some (Json.num 5) }
    "boom" boomTool "kaboom" rfl rfl rfl rfl
  exact ⟨h.1, h.2.1
    { method := some "tools/list", params := [], id := some (Json.num 6) }
    rfl⟩

/-- C4: an unknown tool name yields the -32601 tool-not-found error
containing the name, an unknown method the -32601 method-not-found error
containing the method, and tools/list keeps being served. -/
theorem unknown_tool_and_method_errors (registry : Registry) :
    (∀ (msg : McpMessage) (nm : String),
      msg.method = some "tools/call" →
      List.lookup "name" msg.params = some (Json.str nm) →
      List.lookup nm registry = none →
      mcpHandler registry msg =
        .json (errorResponse (idJson msg.id) (-32601)
          ("Tool not found: " ++ nm))) ∧
    (∀ (msg : McpMessage) (m : String),
      msg.method = some m →
      m ∉ ["initialize", "notifications/initialized", "tools/list",
           "tools/call", "prompts/list"] →
      mcpHandler registry msg =
        .json (errorResponse (idJson msg.id) (-32601)
          ("Method not found: " ++ m))) ∧
    (∀ msg : McpMessage, msg.method = some "tools/list" →
      mcpHandler registry msg =
        .json (toolsListResponse (idJson msg.id) registry)) := by
  refine ⟨?_, ?_, ?_⟩
  · intro msg nm hm hname hreg
    simp [mcpHandler, hm, toolsCall, lookupTool, hname, hreg,
      fstrOptJson, fstrJson]
  · intro msg m hm hnot
    obtain ⟨h1, h2, h3, h4, h5⟩ :
        m ≠ "initialize" ∧ m ≠ "notifications/initialized" ∧
        m ≠ "tools/list" ∧ m ≠ "tools/call" ∧ m ≠ "prompts/list" := by
      simpa using hnot
    simp [mcpHandler, hm, h1, h2, h3, h4, h5, fstrOptStr]
  · intro msg hm
    simp [mcpHandler, hm]

theorem unknown_tool_and_method_errors_witness :
    mcpHandler []
      { method := some "tools/call",
        params := [("name", Json.str "nonexistent"),
                   ("arguments", Json.obj [])],
        id := some (Json.num 3) } =
    HttpResponse.json (errorResponse (Json.num 3) (-32601)
      ("Tool not found: " ++ "nonexistent")) ∧
    mcpHandler []
      { method := some "bogus/method", params := [], id := none } =
    HttpResponse.json (errorResponse Json.null (-32601)
      ("Method not found: " ++ "bogus/method")) := by
  have h := unknown_tool_and_method_errors []
  exact ⟨h.1
    { method := some "tools/call",
      params := [("name", Json.str "nonexistent"),
                 ("arguments", Json.obj [])],
      id := some (Json.num 3) }
    "nonexistent" rfl rfl rfl,
  h.2.1 { method := some "bogus/method", params := [], id := none }
    "bogus/method" rfl (by decide)⟩

/-- C5: dispatching notifications/initialized yields the bodyless 204
response, which is a distinct outcome from any JSON body (in particular
from an empty-object success); the bridge emits no line for a 204 and,
for any non-200/204 status, exactly one error frame carrying the id of
the original request. -/
theorem notification_silence_and_bridge :
    (∀ (registry : Registry) (msg : McpMessage),
      msg.method = some "notifications/initialized" →
      mcpHandler registry msg = HttpResponse.noContent) ∧
    (∀ j : Json, HttpResponse.noContent ≠ HttpResponse.json j) ∧
    (∀ (body : Json) (msgId : Option Json),
      bridgeHandle 204 body msgId = []) ∧
    (∀ (status : Nat) (body : Json) (msgId : Option Json),
      status ≠ 200 → status ≠ 204 →
      bridgeHandle status body msgId = [bridgeErrorFrame msgId status] ∧
      (bridgeErrorFrame msgId status).getField "id" =
        some (idJson msgId)) := by
  refine ⟨?_, ?_, ?_, ?_⟩
  · intro registry msg hm
    simp [mcpHandler, hm]
  · intro j hc
    exact HttpResponse.noConfusion hc
  · intro body msgId
    rfl
  · intro status body msgId h200 h204
    refine ⟨?_, rfl⟩
    simp [bridgeHandle, h200, h204]

theorem notification_silence_and_bridge_witness :
    mcpHandler []
      { method := some "notifications/initialized", params := [],
        id := none } = HttpResponse.noContent ∧
    bridgeHandle 204 Json.null (some (Json.num 9)) = [] ∧
    bridgeHandle 500 Json.null (some (Json.num 9)) =
      [bridgeErrorFrame (some (Json.num 9)) 500] := by
  refine ⟨?_, ?_, ?_⟩
  · exact notification_silence_and_bridge.1 []
      { method := some "notifications/initialized", params := [],
        id := none } rfl
  · exact notification_silence_and_bridge.2.2.1 Json.null (some (Json.num 9))
  · exact (notification_silence_and_bridge.2.2.2 500 Json.null
      (some (Json.num 9)) (by decide) (by decide)).1

/-- C8: a successful tools/call wraps the adapted handler result in
exactly one text content block: a mapping or sequence result is passed
through the JSON serialisation, a string result is wrapped verbatim. -/
theorem call_success_single_text_block (registry : Registry)
    (msg : McpMessage) (nm : String) (tool : ToolObj) (r : Json)
    (hm : msg.method = some "tools/call")
    (hname : List.lookup "name" msg.params = some (Json.str nm))
    (hreg : List.lookup nm registry = some tool)
    (hrun : tool.run ((List.lookup "arguments" msg.params).getD
        (Json.obj [])) = HandlerOutcome.ok r) :
    mcpHandler registry msg =
      .json (callSuccessResponse (idJson msg.id) (formatResult r)) ∧
    (∀ s, formatResult (Json.str s) = s) ∧
    (∀ fs, formatResult (Json.obj fs) = Json.dumps (Json.obj fs)) ∧
    (∀ es, formatResult (Json.arr es) = Json.dumps (Json.arr es)) ∧
    (callSuccessResponse (idJson msg.id) (formatResult r)).getField
        "result" =
      some (Json.obj
        [ ("content", Json.arr
            [Json.obj [("type", Json.str "text"),
                       ("text", Json.str (formatResult r))]]) ]) := by
  refine ⟨?_, fun s => rfl, fun fs => rfl, fun es => rfl, rfl⟩
  simp [mcpHandler, hm, toolsCall, lookupTool, hname, hreg, hrun]

theorem call_success_single_text_block_witness :
    mcpHandler [("echo", echoTool)]
      { method := some "tools/call",
        params := [("name", Json.str "echo"),
                   ("arguments", Json.obj [("text", Json.str "hi")])],
        id := some (Json.num 2) } =
    HttpResponse.json (callSuccessResponse (Json.num 2) "hi") := by
  have h := call_success_single_text_block [("echo", echoTool)]
    { method := some "tools/call",
      params := [("name", Json.str "echo"),
                 ("arguments", Json.obj [("text", Json.str "hi")])],
      id := some (Json.num 2) }
    "echo" echoTool (Json.str "hi") rfl rfl rfl rfl
  exact h.1

/-- A tool whose middle parameter has an annotation that raises during
introspection, flanked by two well-behaved parameters. -/
def badTool : ToolObj :=
  { description := none, fnDoc := none,
    params := [⟨"okparam", PyAnnotation.simple PySimpleType.int, false⟩,
               ⟨"badparam", PyAnnotation.raising, false⟩,
               ⟨"laterparam", PyAnnotation.simple PySimpleType.str, false⟩],
    run := fun _ => .ok Json.null }

/-- C6 fails as stated: when introspection raises at a parameter, that
parameter is not emitted with type string — it is absent from the
synthesized properties altogether (the except arm at server.py:1708
abandons the whole loop, keeping only what was accumulated). -/
theorem tools_list_degraded_counterexample :
    List.lookup "badparam" (synthesizeSchema badTool.params).properties ≠
      some "string" ∧
    (synthesizeSchema badTool.params).properties =
      [("okparam", "integer")] := by
  exact ⟨by decide, rfl⟩

/-- C6 amended: tools/list never fails wholesale — an empty registry
yields an empty tools array; when introspection raises at a parameter,
that parameter and all later ones are omitted from the schema while the
earlier ones are kept, and the tool entry is still present in the
returned array. -/
theorem tools_list_degraded_amended (registry : Registry)
    (msg : McpMessage) (hm : msg.method = some "tools/list")
    (pre post : List PyParam) (pbad : PyParam) (t : ToolObj) (nm : String)
    (ht : t.params = pre ++ pbad :: post)
    (hbadname : ¬(pbad.name = "self" ∨ pbad.name = "cls"))
    (hbad : pbad.annotation = PyAnnotation.raising)
    (hpre : ∀ p ∈ pre, p.annotation ≠ PyAnnotation.raising)
    (hmem : (nm, t) ∈ registry) :
    mcpHandler registry msg =
      .json (toolsListResponse (idJson msg.id) registry) ∧
    synthesizeSchema t.params = synthesizeSchema pre ∧
    toolEntry nm t ∈ toolsArr registry ∧
    toolsArr ([] : Registry) = [] ∧
    (toolsListResponse (idJson msg.id) []).getField "result" =
      some (Json.obj [("tools", Json.arr [])]) := by
  refine ⟨?_, ?_, ?_, rfl, rfl⟩
  · simp [mcpHandler, hm]
  · unfold synthesizeSchema
    rw [ht, synthLoop_append _ _ _ hpre]
    simp [synthLoop, hbadname, hbad, jsonTypeOf]
  · exact List.mem_map.mpr ⟨(nm, t), hmem, rfl⟩

theorem tools_list_degraded_amended_witness :
    mcpHandler [("bad", badTool)]
      { method := some "tools/list", params := [], id := none } =
    HttpResponse.json (toolsListResponse Json.null [("bad", badTool)]) ∧
    synthesizeSchema badTool.params =
      synthesizeSchema
        [⟨"okparam", PyAnnotation.simple PySimpleType.int, false⟩] := by
  have h := tools_list_degraded_amended [("bad", badTool)]
    { method := some "tools/list", params := [], id := none } rfl
    [⟨"okparam", PyAnnotation.simple PySimpleType.int, false⟩]
    [⟨"laterparam", PyAnnotation.simple PySimpleType.str, false⟩]
    ⟨"badparam", PyAnnotation.raising, false⟩
    badTool "bad" rfl (by decide) rfl (by decide)
    (List.mem_cons_self _ _)
  exact ⟨h.1, h.2.1⟩
